/-
Verification of the data-derivation pipeline of the Ashby-charts notebook
(`Ashby_charts.py`, both exported variants).

The notebook loads two tabular data sets and augments them with derived
physical quantities:

* fluids: a `Bulk modulus` column is added as
  `fluids[Density] * fluids[Sound speed]**2`;
* strings: tension in kilograms-force is converted to newtons by `* 9.81`,
  scale length in centimetres to metres by `/ 100`, the fundamental
  frequency is derived from the note name (letter class with `s` for a
  sharp, followed by the octave digit) as
  `440 * 2**(int(note[-1]) - 4 + (semitones - 9)/12)` where `semitones` is
  the position of `note[:-1]` in `note_names`, and the mass per unit length
  is `Tension [N] / (4 * Scale [m]**2 * Frequency [Hz]**2)`;
* contour grids: `z = np.sqrt(grid_a * grid_b)` and
  `c = np.sqrt(grid_a / grid_b)` over outer-product grids.

Exact rational arithmetic (`Rat`) models the float arithmetic of the
columns whose values the notebook computes by field operations only, and
real arithmetic (`Real`) models the transcendental steps (the power of two
in the frequency and the square roots of the contour grids).
-/
import Mathlib

namespace Ashby

/-! ## Fluid records

A fluid row has the primary columns of `Fluid properties.csv`; the loader
adds the derived `Bulk modulus` column once, eagerly
(`fluids[Bulk modulus] = fluids[Density]*fluids[Sound speed]**2`). -/

/-- A fluid record as read from the CSV: primary columns only. -/
structure FluidRow where
  density : ℚ
  soundSpeed : ℚ
  phase : String

/-- A fluid record after the derived `Bulk modulus` column has been added. -/
structure FluidRecord where
  density : ℚ
  soundSpeed : ℚ
  phase : String
  bulkModulus : ℚ

/-- The load-time derivation `fluids[Bulk modulus] =
fluids[Density]*fluids[Sound speed]**2`: the derived field is computed once
from the primary fields and stored. -/
def addBulkModulus (r : FluidRow) : FluidRecord :=
  ⟨r.density, r.soundSpeed, r.phase, r.density * r.soundSpeed ^ 2⟩

/-- Pandas-style in-place mutation of the primary `Density` field of an
already-loaded record (`fluids.loc[name, 'Density'] = d`).  The stored
derived column is not touched. -/
def setDensity (r : FluidRecord) (d : ℚ) : FluidRecord :=
  ⟨d, r.soundSpeed, r.phase, r.bulkModulus⟩

/-- Pandas-style in-place mutation of the primary `Sound speed` field of an
already-loaded record.  The stored derived column is not touched. -/
def setSoundSpeed (r : FluidRecord) (c : ℚ) : FluidRecord :=
  ⟨r.density, c, r.phase, r.bulkModulus⟩

/-! ## String records: unit conversions

Guitar loader: `strings_g['Tension [N]'] = strings_g['Tension (kg)'] * 9.81`
and `strings_g['Scale [m]'] = strings_g['Scale (cm)']/100`.
Various-instruments loader: `strings['Tension [N]'] = strings['Tension (kg)']
* 9.81` and `strings['Scale [m]'] = strings['Scale (cm)']/100`. -/

/-- Tension conversion at the guitar-loader site: kilograms-force to
newtons by multiplication with the literal `9.81`. -/
noncomputable def tensionN_g (kg : ℝ) : ℝ := kg * 9.81

/-- Tension conversion at the various-instruments-loader site: kilograms-force
to newtons by multiplication with the literal `9.81`. -/
noncomputable def tensionN_v (kg : ℝ) : ℝ := kg * 9.81

/-- Scale-length conversion, centimetres to metres. -/
noncomputable def scaleM (cm : ℝ) : ℝ := cm / 100

/-! ## Note-name parsing and the derived frequency -/

/-- `note_names`, exactly as in the source: the twelve letter classes, a
sharp spelled with `s`. -/
def note_names : List String :=
  ["C", "Cs", "D", "Ds", "E", "F", "Fs", "G", "Gs", "A", "As", "B"]

/-- The row-at-a-time note-name parse: `note_names.index(row['Note'][:-1])`
gives the semitone index (a `ValueError`, modelled as `none`, if the prefix
is not a listed letter class) and `int(row['Note'][-1])` gives the octave
(a `ValueError`, modelled as `none`, if the final character is not a
digit; an empty name gives an `IndexError`, also modelled as `none`).
The result is `(semitones, octave)`. -/
def parseNote (s : String) : Option (ℕ × ℕ) :=
  match s.data.getLast? with
  | none => none
  | some c =>
      let pre := String.mk s.data.dropLast
      if pre ∈ note_names then
        if c.isDigit then some (note_names.indexOf pre, c.toNat - 48)
        else none
      else none

/-- The two-part note-name pattern, in the spec's words: a recognised
letter class followed by an octave digit. -/
def matchesPattern (s : String) : Prop :=
  ∃ cls ∈ note_names, ∃ d : Char, d.isDigit = true ∧ s.data = cls.data ++ [d]

/-- Executable form of `matchesPattern`, used for decidability. -/
def matchesBool (s : String) : Bool :=
  note_names.any fun cls =>
    match s.data.getLast? with
    | none => false
    | some d => d.isDigit && s.data == cls.data ++ [d]

/-- The derived fundamental frequency
`440 * 2**(int(note[-1]) - 4 + (semitones - 9)/12)`, as a function of the
semitone index (position of the letter class in `note_names`) and the
octave digit. -/
noncomputable def frequency (semitones octave : ℕ) : ℝ :=
  440 * (2 : ℝ) ^ ((octave : ℝ) - 4 + ((semitones : ℝ) - 9) / 12)

/-! ## Derived string quantities -/

/-- Wave speed on a string, `c = 2*f*L` (a string wave travels twice the
scale length in one period). -/
noncomputable def wave_speed (f L : ℝ) : ℝ := 2 * f * L

/-- The derived column `Mass/length [kg/m] = Tension [N] /
(4*(Scale [m])**2 * Frequency [Hz]**2)`. -/
noncomputable def mass_per_length (τ L f : ℝ) : ℝ := τ / (4 * L ^ 2 * f ^ 2)

/-- One cell of the contour-grid recomputation `c = np.sqrt(tau_grid/mu_grid)`
restricted to its mathematical (real-valued) meaning. -/
noncomputable def contour_c (τ μ : ℝ) : ℝ := Real.sqrt (τ / μ)

/-! ## NumPy semantics of the contour grids

`np.sqrt` of a negative number silently evaluates to NaN (with a runtime
warning, not an exception), division of a nonzero number by zero to a
signed infinity, and `np.sqrt` of negative infinity to NaN.  `GridVal`
makes these outcomes explicit: `GridVal.sqrtOf x` stands for the finite
value `√x` (with `0 ≤ x`), the other constructors for the IEEE specials. -/

/-- Value of one cell of a NumPy contour grid: a finite square root, NaN,
or a signed infinity. -/
inductive GridVal where
  | sqrtOf (x : ℚ)
  | nan
  | inf
  | ninf
deriving DecidableEq

/-- One cell of `c = np.sqrt(tau_grid/mu_grid)` under NumPy semantics:
division by zero gives a signed infinity (NaN for `0/0`), and the square
root of a negative quotient is NaN.  No exception is ever raised. -/
def c_cell (τ μ : ℚ) : GridVal :=
  if μ = 0 then
    (if τ = 0 then GridVal.nan else if 0 < τ then GridVal.inf else GridVal.ninf)
  else if τ / μ < 0 then GridVal.nan
  else GridVal.sqrtOf (τ / μ)

/-- One cell of `z = np.sqrt(tau_grid*mu_grid)` under NumPy semantics: the
square root of a negative product is NaN.  No exception is ever raised. -/
def z_cell (τ μ : ℚ) : GridVal :=
  if τ * μ < 0 then GridVal.nan else GridVal.sqrtOf (τ * μ)

/-! ## Display-name construction

Missing CSV fields are NaN in pandas, and NaN propagates through string
concatenation of object columns; `Option.none` models NaN. -/

/-- Pandas string concatenation of object columns: NaN in either operand
propagates to the result. -/
def concatNaN (a b : Option String) : Option String :=
  match a, b with
  | some x, some y => some (x ++ y)
  | _, _ => none

/-- Guitar-loader label: `strings_g['Name'] = strings_g['Type'] + ' ' +
strings_g['String type']`.  There is no fallback at this site. -/
def name_g (type stringType : Option String) : Option String :=
  concatNaN (concatNaN type (some " ")) stringType

/-- Various-instruments-loader label: `strings['Name'] = strings['Type'] +
' ' + strings['Instrument']`, followed by `notype = pd.isnull(...)` and
`strings.loc[notype, 'Name'] = strings.loc[notype, 'Instrument']`: a null
label is replaced by the instrument name. -/
def name_v (type instrument : Option String) : Option String :=
  match concatNaN (concatNaN type (some " ")) instrument with
  | none => instrument
  | some n => some n

/-! ## Theorems -/

/-- C3 counterexample: the loaded record with density `1.2`, sound speed
`343` and phase `gas` does not get bulk modulus `141204.8`; the code
computes `1.2 * 343^2 = 141178.8`. -/
theorem bulk_modulus_scenario_counterexample :
    (addBulkModulus ⟨1.2, 343, "gas"⟩).bulkModulus ≠ 141204.8 := by
  norm_num [addBulkModulus]

/-- C3 (amended): for every fluid record the derived bulk modulus equals
density times the square of the sound speed; the record with density `1.2`,
sound speed `343` and phase `gas` gets bulk modulus
`1.2 * 343^2 = 141178.8`. -/
theorem bulk_modulus_correct :
    (∀ r : FluidRow, (addBulkModulus r).bulkModulus =
      r.density * r.soundSpeed ^ 2) ∧
    (addBulkModulus ⟨1.2, 343, "gas"⟩).bulkModulus = 141178.8 := by
  refine ⟨fun r => rfl, ?_⟩
  norm_num [addBulkModulus]

/-- C4 counterexample: converting `6.0` kilograms-force at the
guitar-loader site gives `58.86` newtons, not `6.0 * 9.80665 = 58.8399`:
the code multiplies by `9.81`, not by `9.80665`. -/
theorem tension_conversion_counterexample :
    tensionN_g 6 ≠ 6 * 9.80665 := by
  norm_num [tensionN_g]

/-- C4 (amended): at both conversion sites the tension in kilograms-force
is converted to newtons by multiplying by the literal `9.81` (the
approximation to standard gravity), so both sites agree. -/
theorem tension_conversion_sites :
    ∀ kg : ℝ, tensionN_g kg = kg * 9.81 ∧ tensionN_v kg = kg * 9.81 ∧
      tensionN_g kg = tensionN_v kg :=
  fun _ => ⟨rfl, rfl, rfl⟩

/-- C5 counterexample: with tension `1` and a negative mass-per-length
entry `-1`, both grid derivations silently evaluate to NaN, and with a zero
entry the wave-speed derivation evaluates to infinity — no error of any
kind is raised at the point of derivation. -/
theorem grid_nan_counterexample :
    c_cell 1 (-1) = GridVal.nan ∧ z_cell 1 (-1) = GridVal.nan ∧
      c_cell 1 0 = GridVal.inf := by
  refine ⟨?_, ?_, ?_⟩ <;> norm_num [c_cell, z_cell]

/-- C5 (amended): the contour derivation performs no positivity check and
never fails: a negative entry makes both the wave-speed and the impedance
cell silently NaN, and a zero mass-per-length entry makes the wave-speed
cell infinite. -/
theorem grid_nonpositive_silent :
    (∀ τ μ : ℚ, 0 < τ → μ < 0 →
      c_cell τ μ = GridVal.nan ∧ z_cell τ μ = GridVal.nan) ∧
    (∀ τ : ℚ, 0 < τ → c_cell τ 0 = GridVal.inf) := by
  constructor
  · intro τ μ hτ hμ
    have hμ0 : μ ≠ 0 := ne_of_lt hμ
    have hdiv : τ / μ < 0 := div_neg_of_pos_of_neg hτ hμ
    have hmul : τ * μ < 0 := mul_neg_of_pos_of_neg hτ hμ
    constructor
    · simp [c_cell, hμ0, hdiv]
    · simp [z_cell, hmul]
  · intro τ hτ
    have hτ0 : τ ≠ 0 := ne_of_gt hτ
    simp [c_cell, hτ0, hτ]

/-- C5 witness: the amended theorem applied at the concrete cells
`(1, -1)` and `(1, 0)`. -/
theorem grid_nonpositive_silent_witness :
    c_cell 1 (-1) = GridVal.nan ∧ c_cell 1 0 = GridVal.inf :=
  ⟨(grid_nonpositive_silent.1 1 (-1) (by norm_num) (by norm_num)).1,
   grid_nonpositive_silent.2 1 (by norm_num)⟩

/-- C7 counterexample: load the fluid record with density `1` and sound
speed `1` (stored bulk modulus `1`), then mutate the density to `2`: the
stored bulk modulus is still `1`, but density times sound speed squared is
now `2`, so the stored field does not stay consistent. -/
theorem bulk_modulus_stale_counterexample :
    (setDensity (addBulkModulus ⟨1, 1, "gas"⟩) 2).bulkModulus ≠
      (setDensity (addBulkModulus ⟨1, 1, "gas"⟩) 2).density *
        (setDensity (addBulkModulus ⟨1, 1, "gas"⟩) 2).soundSpeed ^ 2 := by
  norm_num [addBulkModulus, setDensity]

/-- C7 (amended): the bulk modulus is computed eagerly at load time and is
never recomputed: after mutating the density or the sound speed of a loaded
record, the stored bulk modulus still equals the product computed from the
load-time fields, so it goes stale rather than staying consistent with the
mutated fields. -/
theorem bulk_modulus_stale :
    ∀ (r : FluidRow) (d c : ℚ),
      (setDensity (addBulkModulus r) d).bulkModulus =
        r.density * r.soundSpeed ^ 2 ∧
      (setSoundSpeed (addBulkModulus r) c).bulkModulus =
        r.density * r.soundSpeed ^ 2 :=
  fun _ _ _ => ⟨rfl, rfl⟩

/-- C9 counterexample: at the guitar-loader site a missing `Type` field
makes the whole label NaN (`none`) — the instrument name is not
substituted there; only the various-instruments site substitutes it. -/
theorem name_fallback_counterexample :
    name_g none (some "Light") = none ∧
      name_v none (some "Ukulele") = some "Ukulele" := by
  exact ⟨rfl, rfl⟩

/-- C9 (amended): the display label is the type field concatenated (with a
space) with the string-type field at the guitar site and with the
instrument field at the various-instruments site.  Only the
various-instruments site falls back to the instrument name alone when the
type is absent; at the guitar site an absent type leaves the label null. -/
theorem name_construction :
    (∀ t st : String, name_g (some t) (some st) = some (t ++ " " ++ st)) ∧
    (∀ st : Option String, name_g none st = none) ∧
    (∀ t i : String, name_v (some t) (some i) = some (t ++ " " ++ i)) ∧
    (∀ i : Option String, name_v none i = i) := by
  refine ⟨fun t st => rfl, fun st => rfl, fun t i => rfl, fun i => ?_⟩
  cases i <;> rfl

/-! ## Note-parse characterisation -/

/-- The note-name parse succeeds exactly on the two-part pattern: a letter
class of `note_names` followed by one final digit. -/
theorem parseNote_isSome_iff (s : String) :
    (parseNote s).isSome ↔ matchesPattern s := by
  cases h : s.data.getLast? with
  | none =>
      have hnil : s.data = [] := List.getLast?_eq_none_iff.mp h
      simp only [parseNote, h, Option.isSome_none, Bool.false_eq_true,
        false_iff]
      rintro ⟨cls, _, d, _, he⟩
      rw [hnil] at he
      exact (List.append_ne_nil_of_right_ne_nil cls.data (by simp)) he.symm
  | some c =>
      have hsplit : s.data.dropLast ++ [c] = s.data := by
        obtain ⟨ys, hys⟩ := List.getLast?_eq_some_iff.mp h
        rw [hys, List.dropLast_concat]
      constructor
      · intro hsome
        simp only [parseNote, h] at hsome
        by_cases hmem : String.mk s.data.dropLast ∈ note_names
        · by_cases hdig : c.isDigit
          · exact ⟨String.mk s.data.dropLast, hmem, c, hdig, hsplit.symm⟩
          · simp [hmem, hdig] at hsome
        · simp [hmem] at hsome
      · rintro ⟨cls, hmem, d, hdig, he⟩
        have hd : s.data.getLast? = some d := by
          rw [he]; exact List.getLast?_concat _
        rw [h] at hd
        injection hd with hcd
        subst hcd
        have hdl : s.data.dropLast = cls.data := by
          rw [he, List.dropLast_concat]
        have hpre : String.mk s.data.dropLast = cls := by
          rw [hdl]
        simp [parseNote, h, hpre, hmem, hdig]

/-- The structural pattern agrees with its executable form. -/
theorem matchesPattern_iff_bool (s : String) :
    matchesPattern s ↔ matchesBool s = true := by
  unfold matchesPattern matchesBool
  rw [List.any_eq_true]
  constructor
  · rintro ⟨cls, hm, d, hdig, he⟩
    refine ⟨cls, hm, ?_⟩
    have hd : s.data.getLast? = some d := by
      rw [he]; exact List.getLast?_concat _
    rw [hd]
    simp [hdig, he]
  · rintro ⟨cls, hm, hp⟩
    cases h : s.data.getLast? with
    | none => rw [h] at hp; simp at hp
    | some d =>
        rw [h] at hp
        simp only [Bool.and_eq_true, beq_iff_eq] at hp
        exact ⟨cls, hm, d, hp.1, hp.2⟩

instance : DecidablePred matchesPattern := fun s =>
  decidable_of_iff (matchesBool s = true) (matchesPattern_iff_bool s).symm

/-- C8: for every note name that does not match the two-part pattern (a
recognised letter class followed by an octave digit), the frequency
derivation fails (the uncaught `ValueError`, the spec's `ParseError`, is
modelled as `none`) and no frequency is derived for that record. -/
theorem parse_fails_on_nonmatching (s : String) (h : ¬ matchesPattern s) :
    parseNote s = none := by
  cases hp : parseNote s with
  | none => rfl
  | some p =>
      exact absurd ((parseNote_isSome_iff s).mp (by rw [hp]; rfl)) h

/-- C8 witness: the concrete ill-formed note name `C#4`. -/
theorem parse_fails_on_nonmatching_witness :
    ¬ matchesPattern "C#4" ∧ parseNote "C#4" = none :=
  ⟨by decide, parse_fails_on_nonmatching "C#4" (by decide)⟩

/-- C10: a note name yields a frequency exactly when it is a letter class
of `note_names` (a sharp spelled with `s`) followed by a single final
octave digit; in particular `C#4` (sharp written with the `#` sign) and
`A10` (two-character octave part) both fail to parse. -/
theorem parse_language :
    (∀ s : String, (parseNote s).isSome ↔ matchesPattern s) ∧
    parseNote "C#4" = none ∧ parseNote "A10" = none := by
  refine ⟨parseNote_isSome_iff, by decide, by decide⟩

/-! ## The derived frequency -/

/-- C1: the derived frequency is `440 * 2 ^ ((idx_from_A + 12*(octave-4))/12)`
where `idx_from_A = semitones - 9` is the signed semitone distance of the
letter class from `A`; `A4` gives exactly 440, `A3` exactly 220, and the
frequency is strictly increasing in the lexicographic order on
`(octave, letter-class index)`. -/
theorem frequency_spec :
    (∀ i o : ℕ, i < 12 →
      frequency i o =
        440 * (2 : ℝ) ^ ((((i : ℝ) - 9) + 12 * ((o : ℝ) - 4)) / 12)) ∧
    frequency 9 4 = 440 ∧
    frequency 9 3 = 220 ∧
    (∀ i1 o1 i2 o2 : ℕ, i1 < 12 → i2 < 12 →
      (o1 < o2 ∨ (o1 = o2 ∧ i1 < i2)) →
      frequency i1 o1 < frequency i2 o2) := by
  refine ⟨?_, ?_, ?_, ?_⟩
  · intro i o _
    have he : ((o : ℝ) - 4 + ((i : ℝ) - 9) / 12) =
        (((i : ℝ) - 9) + 12 * ((o : ℝ) - 4)) / 12 := by ring
    rw [frequency, he]
  · have he : (((4:ℕ) : ℝ) - 4 + (((9:ℕ) : ℝ) - 9) / 12) = 0 := by norm_num
    rw [frequency, he, Real.rpow_zero]
    norm_num
  · have he : (((3:ℕ) : ℝ) - 4 + (((9:ℕ) : ℝ) - 9) / 12) = ((-1 : ℤ) : ℝ) := by
      norm_num
    rw [frequency, he, Real.rpow_intCast]
    norm_num
  · intro i1 o1 i2 o2 h1 h2 hlex
    rw [frequency, frequency]
    have hbase : (1:ℝ) < 2 := by norm_num
    refine mul_lt_mul_of_pos_left ((Real.rpow_lt_rpow_left_iff hbase).mpr ?_)
      (by norm_num)
    have hi1 : (i1 : ℝ) ≤ 11 := by exact_mod_cast Nat.lt_succ_iff.mp h1
    have hi2 : (0 : ℝ) ≤ (i2 : ℝ) := Nat.cast_nonneg i2
    rcases hlex with ho | ⟨ho, hi⟩
    · have hoc : (o1 : ℝ) + 1 ≤ (o2 : ℝ) := by exact_mod_cast ho
      linarith
    · subst ho
      have hic : (i1 : ℝ) + 1 ≤ (i2 : ℝ) := by exact_mod_cast hi
      linarith

/-- C1 witness: `A3` is strictly below `A4`. -/
theorem frequency_spec_witness : frequency 9 3 < frequency 9 4 :=
  frequency_spec.2.2.2 9 3 9 4 (by norm_num) (by norm_num)
    (Or.inl (by norm_num))

/-! ## Scenario 4 numerics -/

/-- Rational bounds on `2 ^ (-29/12)`, the equal-temperament ratio from
`A4` down to `E2`. -/
theorem two_rpow_E2_bounds :
    0.187288 < (2 : ℝ) ^ ((-29 : ℝ) / 12) ∧
      (2 : ℝ) ^ ((-29 : ℝ) / 12) < 0.187289 := by
  have hpos : (0:ℝ) < (2 : ℝ) ^ ((-29 : ℝ) / 12) :=
    Real.rpow_pos_of_pos (by norm_num) _
  have h12 : ((2 : ℝ) ^ ((-29 : ℝ) / 12)) ^ (12 : ℕ) = ((2:ℝ) ^ (29:ℕ))⁻¹ := by
    rw [← Real.rpow_natCast ((2 : ℝ) ^ ((-29 : ℝ) / 12)) 12,
      ← Real.rpow_mul (by norm_num : (0:ℝ) ≤ 2)]
    have he : (-29 : ℝ) / 12 * ((12 : ℕ) : ℝ) = ((-29 : ℤ) : ℝ) := by
      push_cast
      norm_num
    rw [he, Real.rpow_intCast]
    norm_num
  constructor
  · by_contra hle
    push_neg at hle
    have hpow : ((2 : ℝ) ^ ((-29 : ℝ) / 12)) ^ (12:ℕ) ≤ (0.187288:ℝ) ^ (12:ℕ) :=
      pow_le_pow_left₀ hpos.le hle 12
    rw [h12] at hpow
    norm_num at hpow
  · by_contra hle
    push_neg at hle
    have hpow : (0.187289:ℝ) ^ (12:ℕ) ≤ ((2 : ℝ) ^ ((-29 : ℝ) / 12)) ^ (12:ℕ) :=
      pow_le_pow_left₀ (by norm_num) hle 12
    rw [h12] at hpow
    norm_num at hpow

/-- The derived frequency of `E2` (semitone index 4, octave 2) is
`440 * 2 ^ (-29/12)`. -/
theorem frequency_E2_eq :
    frequency 4 2 = 440 * (2 : ℝ) ^ ((-29 : ℝ) / 12) := by
  have he : (((2:ℕ) : ℝ) - 4 + (((4:ℕ) : ℝ) - 9) / 12) = (-29 : ℝ) / 12 := by
    norm_num
  rw [frequency, he]

/-- Rational bounds on the derived frequency of `E2`. -/
theorem frequency_E2_bounds :
    82.4067 < frequency 4 2 ∧ frequency 4 2 < 82.4072 := by
  obtain ⟨h1, h2⟩ := two_rpow_E2_bounds
  rw [frequency_E2_eq]
  constructor <;> nlinarith

/-- C2: the derived mass per unit length is the tension divided by the
square of the wave speed `2*f*L`, and Scenario 4 (tension `6.0` kgf, i.e.
`58.86` N, scale `64.5` cm, note `E2` with semitone index 4 and octave 2)
gives frequency about `82.4069` Hz, wave speed about `106.30` m/s and mass
per unit length about `0.005208` kg/m. -/
theorem mass_per_length_spec :
    (∀ τ L f : ℝ, mass_per_length τ L f = τ / (wave_speed f L) ^ 2) ∧
    |frequency 4 2 - 82.4069| < 0.001 ∧
    |wave_speed (frequency 4 2) (scaleM 64.5) - 106.30| < 0.01 ∧
    |mass_per_length (tensionN_g 6) (scaleM 64.5) (frequency 4 2) -
      0.005208| < 0.00001 := by
  obtain ⟨hf1, hf2⟩ := frequency_E2_bounds
  refine ⟨?_, ?_, ?_, ?_⟩
  · intro τ L f
    rw [mass_per_length, wave_speed,
      show (2 * f * L) ^ 2 = 4 * L ^ 2 * f ^ 2 by ring]
  · rw [abs_lt]
    constructor <;> linarith
  · simp only [wave_speed, scaleM]
    rw [abs_lt]
    constructor <;> linarith
  · simp only [mass_per_length, tensionN_g, scaleM]
    have hD1 : (11300.6:ℝ) < 4 * (64.5/100) ^ 2 * (frequency 4 2) ^ 2 := by
      nlinarith
    have hD2 : 4 * (64.5/100) ^ 2 * (frequency 4 2) ^ 2 < (11300.9:ℝ) := by
      nlinarith
    have hDpos : (0:ℝ) < 4 * (64.5/100) ^ 2 * (frequency 4 2) ^ 2 := by
      linarith
    rw [abs_lt]
    constructor
    · have hlow : (0.005198:ℝ) <
          6 * 9.81 / (4 * (64.5/100) ^ 2 * (frequency 4 2) ^ 2) := by
        rw [lt_div_iff₀ hDpos]
        linarith
      linarith
    · have hhigh : 6 * 9.81 / (4 * (64.5/100) ^ 2 * (frequency 4 2) ^ 2) <
          (0.005218:ℝ) := by
        rw [div_lt_iff₀ hDpos]
        linarith
      linarith

/-! ## Round trip -/

/-- C6: deriving the mass per unit length from tension, scale and frequency
and then recomputing the wave speed as the square root of tension over mass
per unit length recovers the wave speed `2*f*L` exactly over the reals. -/
theorem wave_speed_roundtrip (τ L f : ℝ) (hτ : 0 < τ) (hL : 0 < L)
    (hf : 0 < f) :
    contour_c τ (mass_per_length τ L f) = wave_speed f L := by
  have hτ0 : τ ≠ 0 := ne_of_gt hτ
  have hL0 : L ≠ 0 := ne_of_gt hL
  have hf0 : f ≠ 0 := ne_of_gt hf
  simp only [contour_c, mass_per_length, wave_speed]
  have key : τ / (τ / (4 * L ^ 2 * f ^ 2)) = (2 * f * L) ^ 2 := by
    field_simp
    ring
  rw [key, Real.sqrt_sq (by positivity)]

/-- C6 witness: tension 1, scale 1, frequency 1. -/
theorem wave_speed_roundtrip_witness :
    contour_c 1 (mass_per_length 1 1 1) = wave_speed 1 1 :=
  wave_speed_roundtrip 1 1 1 (by norm_num) (by norm_num) (by norm_num)

end Ashby
